import Mathlib

/-!
Shallow embedding of the two command-line tools in `rust_edge_tools`:
`src/modbus/src/main.rs` and `src/nats/src/main.rs`.

Network and library behaviour (TCP connect, Modbus register reads/writes,
NATS subscription streams) is delegated to external libraries in the source;
here it is modelled by explicit environment records (`ModbusEnv`, `Client`)
describing what each library call would return, and each run is summarised
by the trace of library calls issued, the lines printed to stdout, the log
records emitted, and the process status.
-/

/-! ## Common run-status model -/

/-- Severity levels of the `log` crate calls used by both tools. -/
inductive LogLevel
  | info
  | warn
  | error
deriving DecidableEq, Repr

/-- Outcome of a process run observed over a finite number of events:
`exited code` models `std::process::exit(code)` or returning from `main`
(code 0); `running` means the process is still going (a watch/listen loop
still looping, or an await still blocked) after the observed events;
`panicked` models a Rust panic (`unwrap` on `None`). -/
inductive ProcStatus
  | exited (code : Int)
  | running
  | panicked
deriving DecidableEq, Repr

/-! ## Modbus tool: data model (src/modbus/src/main.rs) -/

/-- `enum RegisterKind { Holding, Input }`. -/
inductive RegisterKind
  | holding
  | input
deriving DecidableEq, Repr

/-- `enum ReadPresentationKind { Hex, Dec }`. -/
inductive ReadPresentationKind
  | hex
  | dec
deriving DecidableEq, Repr

/-- The two Modbus subcommands, with the optional fields exactly as in the
`Subcommands` enum of the source (u16/u8 values carried as `Nat`). -/
inductive ModbusSub
  | readRegister (address : Nat) (kind : RegisterKind) (watch : Option Bool)
      (unit_id : Option Nat) (count : Option Nat)
      (pres : Option ReadPresentationKind)
  | writeRegister (address : Nat) (value : Nat) (unit_id : Option Nat)
deriving DecidableEq, Repr

/-- The Modbus tool's parsed command line (`struct Args`).
`addressParseOk` records whether `cli.address.parse::<SocketAddr>()`
succeeds; the std-library address parser itself is out of scope. -/
structure ModbusArgs where
  addressParseOk : Bool
  command : Option ModbusSub
deriving DecidableEq, Repr

/-- One call into the `tokio_modbus` client library. -/
inductive ModbusEvent
  | connect
  | setSlave (unit_id : Nat)
  | readHolding (address count : Nat)
  | readInput (address count : Nat)
  | writeSingleRegister (address value : Nat)
deriving DecidableEq, Repr

/-- Behaviour of the remote Modbus device / transport, as seen through the
library calls: whether `tcp::connect` succeeds, whether read and write
requests succeed, and the register contents returned on a read. -/
structure ModbusEnv where
  connectOk : Bool
  readOk : Bool
  writeOk : Bool
  regs : RegisterKind → Nat → Nat

/-- Result of one whole run of the Modbus tool. -/
structure ModbusRun where
  trace : List ModbusEvent
  output : List String
  logs : List (LogLevel × String)
  status : ProcStatus
deriving DecidableEq, Repr

/-! ## Modbus tool: operations -/

/-- Rust's `format!("{:#x}", n)`: `0x` followed by lowercase hex digits. -/
def rustHexFormat (n : Nat) : String :=
  "0x" ++ String.mk (Nat.toDigits 16 n)

/-- One register value under a presentation: `format!("{}", number)` for
decimal, `format!("{:#x}", number)` for hexadecimal. -/
def formatRegister : ReadPresentationKind → Nat → String
  | .dec, number => toString number
  | .hex, number => rustHexFormat number

/-- Rust's `format!("{:?}", vec)` on a `Vec<String>` whose entries contain
no characters needing escapes (here: digits, `x`, hex letters). -/
def debugList (xs : List String) : String :=
  "[" ++ String.intercalate ", " (xs.map (fun s => "\"" ++ s ++ "\"")) ++ "]"

/-- The body of the `match presentation` block in `main`: format every
returned register value and render the vector debug-style. -/
def formatResult (pres : ReadPresentationKind) (result : List Nat) : String :=
  debugList (result.map (fun number => formatRegister pres number))

/-- The read request event issued for a register kind (`read_holding_registers`
or `read_input_registers`). -/
def readEvent (kind : RegisterKind) (address count : Nat) : ModbusEvent :=
  match kind with
  | .holding => .readHolding address count
  | .input => .readInput address count

/-- `read_modbus`: connect, bind the unit id, issue one read request for
`count` registers starting at `address`; returns the library-call trace and
the result. A successful read returns the `count` registers in order. -/
def read_modbus (env : ModbusEnv) (address count : Nat) (kind : RegisterKind)
    (unit_id : Nat) : List ModbusEvent × Except String (List Nat) :=
  if env.connectOk then
    ([.connect, .setSlave unit_id, readEvent kind address count],
      if env.readOk then
        .ok ((List.range count).map (fun i => env.regs kind (address + i)))
      else .error "read error")
  else ([.connect], .error "connect error")

/-- `write_modbus`: connect, bind the unit id, issue one
`write_single_register(address, value)` call. -/
def write_modbus (env : ModbusEnv) (address value : Nat) (unit_id : Nat) :
    List ModbusEvent × Except String Unit :=
  if env.connectOk then
    ([.connect, .setSlave unit_id, .writeSingleRegister address value],
      if env.writeOk then .ok () else .error "write error")
  else ([.connect], .error "connect error")

/-- The `loop` in `main`'s `ReadRegister` arm, run for at most `fuel`
iterations (the source loop is unbounded when `watch` is true): each
iteration calls `read_modbus`, exits `-1` on error, otherwise prints the
formatted result and breaks unless `watch`. -/
def readRegisterLoop (env : ModbusEnv) (address count : Nat)
    (kind : RegisterKind) (unit_id : Nat) (pres : ReadPresentationKind)
    (watch : Bool) : Nat → List ModbusEvent → List String → ModbusRun
  | 0, trace, out => ⟨trace, out, [], .running⟩
  | fuel + 1, trace, out =>
    match read_modbus env address count kind unit_id with
    | (events, .error err) =>
      ⟨trace ++ events, out,
        [(.error, "Received error. Aborting: " ++ err)], .exited (-1)⟩
    | (events, .ok result) =>
      let formatted_result := formatResult pres result
      if !watch then
        ⟨trace ++ events, out ++ [formatted_result], [], .exited 0⟩
      else
        readRegisterLoop env address count kind unit_id pres watch fuel
          (trace ++ events) (out ++ [formatted_result])

/-- The Modbus tool's `main`: parse the address, require a subcommand, then
run the read loop or the single write, applying the source's defaults
(count 1, unit id 1, watch false, decimal presentation). -/
def modbusMain (env : ModbusEnv) (args : ModbusArgs) (fuel : Nat) : ModbusRun :=
  if !args.addressParseOk then
    ⟨[], [], [(.error, "Unable to parse address")], .exited (-1)⟩
  else
    match args.command with
    | none => ⟨[], [], [(.warn, "No subcommand specified.")], .exited (-1)⟩
    | some (.readRegister address kind watch unit_id count pres) =>
      let count := count.getD 1
      let unit_id := unit_id.getD 1
      let watch := watch.getD false
      let pres := pres.getD .dec
      readRegisterLoop env address count kind unit_id pres watch fuel [] []
    | some (.writeRegister address value unit_id) =>
      let unit_id := unit_id.getD 1
      match write_modbus env address value unit_id with
      | (events, .error err) =>
        ⟨events, [],
          [(.error, "Unable to write modbus address: " ++ err)], .exited (-1)⟩
      | (events, .ok _) => ⟨events, [], [], .exited 0⟩

/-- Recogniser for connection-opening events, to count how many connections
a run opens. -/
def isConnect : ModbusEvent → Bool
  | .connect => true
  | _ => false

/-- Recogniser for write-register calls. -/
def isWriteEvent : ModbusEvent → Bool
  | .writeSingleRegister _ _ => true
  | _ => false

/-! ## NATS tool: data model (src/nats/src/main.rs) -/

/-- The three NATS subcommands, with the fields of the `Subcommands` enum. -/
inductive NatsSub
  | subscribe (subject : String) (watch : Option Bool)
  | publish (subject : String) (message : String)
  | listSubjects (filter_response : Bool)
deriving DecidableEq, Repr

/-- The NATS tool's parsed command line (`struct Args`). -/
structure NatsArgs where
  address : String
  username : Option String
  password : Option String
  token : Option String
  verbose : Option Bool
  command : NatsSub
deriving DecidableEq, Repr

/-- The authentication mode selected by `get_connect_options`. -/
inductive AuthMode
  | userAndPassword (user password : String)
  | tokenAuth (token : String)
  | noAuth
deriving DecidableEq, Repr

/-- The part of `async_nats::ConnectOptions` this tool determines: which
credentials the connection will use (the event callback installed on it is
passive logging with no control flow and is not modelled). -/
structure ConnectOptions where
  auth : AuthMode
deriving DecidableEq, Repr

/-- Whether an `Except` value is `ok` (Rust `Result::is_ok`). -/
def exceptOk {ε α : Type} : Except ε α → Bool
  | .ok _ => true
  | .error _ => false

/-- One NATS message as the subscribe/list code sees it: subject, raw
payload bytes, and the `description`/`status` fields printed in verbose
mode. -/
structure NatsMessage where
  subject : String
  payload : List Nat
  description : Option String
  status : Option Nat
deriving DecidableEq, Repr

/-- The connected `async_nats::Client` together with the behaviour of the
server as seen through it: whether `subscribe` and `publish` calls succeed,
and the sequence of results successive `subscription.next().await` calls
would produce (`some msg` a delivered message, `none` the end of the
stream); the list being exhausted means the next `next()` is still blocked
when observation stops. -/
structure Client where
  subscribeOk : Bool
  stream : List (Option NatsMessage)
  publishOk : Bool
deriving DecidableEq, Repr

/-! ## UTF-8 decoding (std `String::from_utf8`) -/

/-- Is `b` a UTF-8 continuation byte (`0x80..=0xBF`)? -/
def isCont (b : Nat) : Bool :=
  0x80 ≤ b && b ≤ 0xBF

/-- Decode a byte list as UTF-8 code points, following RFC 3629 exactly as
`String::from_utf8` does (shortest forms only, no surrogates, max
`U+10FFFF`); `none` when the bytes are not valid UTF-8. -/
def utf8DecodeAux : List Nat → Option (List Char)
  | [] => some []
  | b :: rest =>
    if b ≤ 0x7F then
      (utf8DecodeAux rest).map (fun cs => Char.ofNat b :: cs)
    else if 0xC2 ≤ b && b ≤ 0xDF then
      match rest with
      | c1 :: rest2 =>
        if isCont c1 then
          (utf8DecodeAux rest2).map
            (fun cs => Char.ofNat ((b - 0xC0) * 0x40 + (c1 - 0x80)) :: cs)
        else none
      | [] => none
    else if 0xE0 ≤ b && b ≤ 0xEF then
      match rest with
      | c1 :: c2 :: rest2 =>
        if (if b == 0xE0 then 0xA0 ≤ c1 && c1 ≤ 0xBF
            else if b == 0xED then 0x80 ≤ c1 && c1 ≤ 0x9F
            else isCont c1) && isCont c2 then
          (utf8DecodeAux rest2).map
            (fun cs =>
              Char.ofNat ((b - 0xE0) * 0x1000 + (c1 - 0x80) * 0x40 + (c2 - 0x80)) :: cs)
        else none
      | _ => none
    else if 0xF0 ≤ b && b ≤ 0xF4 then
      match rest with
      | c1 :: c2 :: c3 :: rest2 =>
        if (if b == 0xF0 then 0x90 ≤ c1 && c1 ≤ 0xBF
            else if b == 0xF4 then 0x80 ≤ c1 && c1 ≤ 0x8F
            else isCont c1) && isCont c2 && isCont c3 then
          (utf8DecodeAux rest2).map
            (fun cs =>
              Char.ofNat ((b - 0xF0) * 0x40000 + (c1 - 0x80) * 0x1000
                + (c2 - 0x80) * 0x40 + (c3 - 0x80)) :: cs)
        else none
      | _ => none
    else none

/-- `String::from_utf8(bytes)` as an `Option String`. -/
def utf8Decode (bytes : List Nat) : Option String :=
  (utf8DecodeAux bytes).map String.mk

/-! ## NATS tool: operations -/

/-- `get_connect_options`: the `match` on
`(args.username, args.password, args.token)`, arms in source order. -/
def get_connect_options (args : NatsArgs) : Except String ConnectOptions :=
  match args.username, args.password, args.token with
  | some user, some password, none => .ok ⟨.userAndPassword user password⟩
  | some _, none, _ => .error "Username but no password specified."
  | none, some _, _ => .error "Password but no username specified"
  | none, none, some token => .ok ⟨.tokenAuth token⟩
  | some _, some _, some _ =>
    .error "Username and password, token specified. Can\x27t decide which to use."
  | none, none, none => .ok ⟨.noAuth⟩

/-- Rust `format!("{:?}", opt)` on an `Option<String>`. -/
def optStrDebug : Option String → String
  | none => "None"
  | some s => "Some(\"" ++ s ++ "\")"

/-- Rust `format!("{:?}", opt)` on the optional numeric status field. -/
def optNatDebug : Option Nat → String
  | none => "None"
  | some n => "Some(" ++ toString n ++ ")"

deriving instance DecidableEq for Except

/-- How a `subscribe` run ends: the function returned (`Ok`/`Err`), or is
still blocked awaiting a message. -/
inductive SubOutcome
  | finished (result : Except String Unit)
  | blocked
deriving DecidableEq, Repr

/-- `subscribe`: after subscribing, `for message in subscription.next().await`
iterates over the `Option` returned by a single `next()` call, so the body
runs at most once no matter what `watch` is; the source's `if !watch break`
and the exhaustion of that one-element iterator end the loop the same way.
Returns the printed lines and the outcome. -/
def natsSubscribe (connection : Client) (subject : String)
    (watch verbose : Option Bool) : List String × SubOutcome :=
  let watch := watch.getD false
  let verbose := verbose.getD false
  if !connection.subscribeOk then
    ([], .finished (.error "Unable to subscribe: subscribe error"))
  else
    match connection.stream with
    | [] => ([], .blocked)
    | none :: _ => ([], .finished (.ok ()))
    | some message :: _ =>
      match utf8Decode message.payload with
      | none =>
        ([], .finished (.error
          "Unable to parse message into utf-8. Please petition to authors to display raw bytes."))
      | some payload =>
        let out :=
          if verbose then
            ["Description: " ++ optStrDebug message.description,
             "Status: " ++ optNatDebug message.status,
             "Subject: " ++ message.subject,
             "Payload: " ++ payload]
          else [payload]
        -- whether `!watch` breaks or the Option iterator is exhausted,
        -- the loop ends here and the function returns Ok
        (out, .finished (.ok ()))

/-- `publish`: one `connection.publish(subject, payload)` call, its error
wrapped with a descriptive message. -/
def natsPublish (connection : Client) (subject payload : String) :
    Except String Unit :=
  if connection.publishOk then .ok ()
  else .error "Unable to publish: publish error"

/-- Does the first character list begin with the second one? -/
def charsBeginWith : List Char → List Char → Bool
  | _, [] => true
  | [], _ :: _ => false
  | c :: cs, p :: ps => c == p && charsBeginWith cs ps

/-- Rust's `str::starts_with(pre)`: does `s` begin with the string `pre`? -/
def strBeginsWith (s pre : String) : Bool :=
  charsBeginWith s.data pre.data

/-- How a `list_topics` run ends: still looping after the observed stream,
panicked on `unwrap()` of a `None` from `next()`, or returned `Err` from
the initial subscribe. In the first two cases the printed subjects are
carried along. -/
inductive TopicsOutcome
  | running (out : List String)
  | panicked (out : List String)
  | failed (err : String)
deriving DecidableEq, Repr

/-- The printed lines of a `list_topics` outcome. -/
def topicsOut : TopicsOutcome → List String
  | .running out => out
  | .panicked out => out
  | .failed _ => []

/-- The `loop` in `list_topics`: take the next stream event; `unwrap()`
panics on `None`; skip subjects starting with `_INBOX` when filtering;
print a subject only when inserting it into the seen map for the first
time. `seen` holds the keys of the `HashMap`. -/
def list_topics_loop (filter_response : Bool) :
    List (Option NatsMessage) → List String → List String → TopicsOutcome
  | [], _, out => .running out
  | none :: _, _, out => .panicked out
  | some message :: rest, seen, out =>
    if filter_response && strBeginsWith message.subject "_INBOX" then
      list_topics_loop filter_response rest seen out
    else if seen.contains message.subject then
      list_topics_loop filter_response rest seen out
    else
      list_topics_loop filter_response rest (message.subject :: seen)
        (out ++ [message.subject])

/-- `list_topics`: subscribe to the wildcard subject `>`, then run the
receive loop with an empty seen-map. -/
def list_topics (connection : Client) (filter_response : Bool) : TopicsOutcome :=
  if !connection.subscribeOk then .failed "Error subscribing: subscribe error"
  else list_topics_loop filter_response connection.stream [] []

/-- Result of one whole run of the NATS tool. `connects` counts attempts to
open the connection (`connect_options.connect(cli.address)`). -/
structure NatsRun where
  output : List String
  logs : List (LogLevel × String)
  connects : Nat
  status : ProcStatus
deriving DecidableEq, Repr

/-- The NATS tool's `main`: resolve connect options (returning, with exit
code 0, on a validation error), connect (returning, with exit code 0, on a
connection error), then dispatch on the subcommand, logging any error the
operation returns and falling off the end of `main` (exit code 0).
`connectOk` is whether the connection attempt would succeed. -/
def natsMain (connectOk : Bool) (client : Client) (args : NatsArgs) : NatsRun :=
  match get_connect_options args with
  | .error err =>
    ⟨[], [(.error, "Unable to parse options: " ++ err)], 0, .exited 0⟩
  | .ok _opts =>
    if !connectOk then
      ⟨[], [(.error, "Unable to connect to remote: connect error")], 1, .exited 0⟩
    else
      match args.command with
      | .subscribe subject watch =>
        match natsSubscribe client subject watch args.verbose with
        | (out, .blocked) => ⟨out, [], 1, .running⟩
        | (out, .finished (.ok _)) => ⟨out, [], 1, .exited 0⟩
        | (out, .finished (.error err)) =>
          ⟨out, [(.error, "Aborted subscription: " ++ err)], 1, .exited 0⟩
      | .publish subject message =>
        match natsPublish client subject message with
        | .ok _ => ⟨[], [], 1, .exited 0⟩
        | .error err => ⟨[], [(.error, "Could not publish: " ++ err)], 1, .exited 0⟩
      | .listSubjects filter_response =>
        match list_topics client filter_response with
        | .running out => ⟨out, [], 1, .running⟩
        | .panicked out => ⟨out, [], 1, .panicked⟩
        | .failed err =>
          ⟨[], [(.error, "Error while listing topics: " ++ err)], 1, .exited 0⟩

/-! ## Concrete runs used as counterexamples and witnesses -/

/-- A message with payload the single byte `97` (UTF-8 for `a`). -/
def msgA : NatsMessage := ⟨"subj", [97], none, none⟩

/-- A message with payload the single byte `98` (UTF-8 for `b`). -/
def msgB : NatsMessage := ⟨"subj", [98], none, none⟩

/-- A client whose subscription stream delivers two messages. -/
def clientTwoMessages : Client := ⟨true, [some msgA, some msgB], true⟩

/-- A client delivering one message whose payload byte `0xFF` is not valid
UTF-8. -/
def clientBadPayload : Client := ⟨true, [some ⟨"subj", [255], none, none⟩], true⟩

/-- A client whose subscription stream ends immediately
(`next()` returns `None`). -/
def clientEndedStream : Client := ⟨true, [none], true⟩

/-- A client delivering a repeated subject, an `_INBOX` subject, and a
second distinct subject. -/
def clientSubjects : Client :=
  ⟨true,
    [some ⟨"alpha", [], none, none⟩, some ⟨"alpha", [], none, none⟩,
     some ⟨"_INBOX.reply", [], none, none⟩, some ⟨"beta", [], none, none⟩],
    true⟩

/-- NATS command line: publish with no credentials. -/
def argsPublishNoAuth : NatsArgs :=
  ⟨"demo.nats:4222", none, none, none, none, .publish "subj" "hello"⟩

/-- NATS command line: a username but no password. -/
def argsUserOnly : NatsArgs :=
  ⟨"demo.nats:4222", some "user", none, none, none, .publish "subj" "hello"⟩

/-- NATS command line: list-subjects without response filtering. -/
def argsListNoFilter : NatsArgs :=
  ⟨"demo.nats:4222", none, none, none, none, .listSubjects false⟩

/-- A Modbus environment where every library call succeeds and every
register reads as 255. -/
def envAllOk : ModbusEnv := ⟨true, true, true, fun _ _ => 255⟩

/-- The three credential configurations the spec says are accepted:
username+password together, token alone, or no credentials at all. -/
def acceptedAuth (args : NatsArgs) : Prop :=
  (args.username ≠ none ∧ args.password ≠ none ∧ args.token = none)
  ∨ (args.username = none ∧ args.password = none ∧ args.token ≠ none)
  ∨ (args.username = none ∧ args.password = none ∧ args.token = none)

/-! ## Helper lemmas -/

theorem isConnect_readEvent (kind : RegisterKind) (address count : Nat) :
    isConnect (readEvent kind address count) = false := by
  cases kind <;> rfl

theorem readRegisterLoop_status_logs (env : ModbusEnv) (address count : Nat)
    (kind : RegisterKind) (unit_id : Nat) (pres : ReadPresentationKind)
    (watch : Bool) (fuel : Nat) (trace : List ModbusEvent) (out : List String) :
    ((readRegisterLoop env address count kind unit_id pres watch fuel trace out).status
        = .exited (-1)
      ↔ (readRegisterLoop env address count kind unit_id pres watch fuel trace out).logs ≠ [])
    ∧ (∀ c, (readRegisterLoop env address count kind unit_id pres watch fuel trace out).status
        = .exited c → c = 0 ∨ c = -1) := by
  induction fuel generalizing trace out with
  | zero => simp [readRegisterLoop]
  | succ fuel ih =>
    rcases hr : read_modbus env address count kind unit_id with ⟨events, res⟩
    cases res with
    | error err => simp [readRegisterLoop, hr]
    | ok result =>
      by_cases hw : watch
      · simpa [readRegisterLoop, hr, hw] using ih (trace ++ events)
          (out ++ [formatResult pres result])
      · simp [readRegisterLoop, hr, hw]

theorem natsMain_status_cases (connectOk : Bool) (client : Client)
    (args : NatsArgs) :
    (natsMain connectOk client args).status = .exited 0
    ∨ (natsMain connectOk client args).status = .running
    ∨ (natsMain connectOk client args).status = .panicked := by
  rcases hopt : get_connect_options args with err | opts
  · simp [natsMain, hopt]
  · cases hc : connectOk
    · simp [natsMain, hopt, hc]
    · rcases hcmd : args.command with ⟨subject, watch⟩ | ⟨subject, message⟩ | fr
      · rcases hs : natsSubscribe client subject watch args.verbose with ⟨out, oc⟩
        rcases oc with ⟨_ | _⟩ | _ <;> simp [natsMain, hopt, hc, hcmd, hs]
      · rcases hp : natsPublish client subject message with _ | _ <;>
          simp [natsMain, hopt, hc, hcmd, hp]
      · rcases ht : list_topics client fr with out | out | err <;>
          simp [natsMain, hopt, hc, hcmd, ht]

theorem list_topics_loop_invariant (fr : Bool)
    (stream : List (Option NatsMessage)) (seen out : List String)
    (hnd : out.Nodup) (hsub : ∀ s ∈ out, s ∈ seen)
    (hflt : fr = true → ∀ s ∈ out, strBeginsWith s "_INBOX" = false) :
    (topicsOut (list_topics_loop fr stream seen out)).Nodup
    ∧ (fr = true →
        ∀ s ∈ topicsOut (list_topics_loop fr stream seen out),
          strBeginsWith s "_INBOX" = false) := by
  induction stream generalizing seen out with
  | nil => exact ⟨hnd, hflt⟩
  | cons head rest ih =>
    cases head with
    | none => exact ⟨hnd, hflt⟩
    | some message =>
      by_cases hskip : fr && strBeginsWith message.subject "_INBOX"
      · simpa [list_topics_loop, hskip] using ih seen out hnd hsub hflt
      · by_cases hseen : message.subject ∈ seen
        · simpa [list_topics_loop, hskip, hseen] using ih seen out hnd hsub hflt
        · have hout : message.subject ∉ out := fun h => hseen (hsub _ h)
          have hnd' : (out ++ [message.subject]).Nodup := by
            simp [List.nodup_append, hnd, hout]
          have hsub' : ∀ s ∈ out ++ [message.subject],
              s ∈ message.subject :: seen := by
            intro s hs
            rcases List.mem_append.mp hs with h | h
            · exact List.mem_cons_of_mem _ (hsub _ h)
            · simp at h
              simp [h]
          have hflt' : fr = true →
              ∀ s ∈ out ++ [message.subject], strBeginsWith s "_INBOX" = false := by
            intro hfr s hs
            rcases List.mem_append.mp hs with h | h
            · exact hflt hfr s h
            · simp at h
              subst h
              subst hfr
              simpa using hskip
          simpa [list_topics_loop, hskip, hseen] using
            ih (message.subject :: seen) (out ++ [message.subject]) hnd' hsub' hflt'

theorem list_topics_loop_running (fr : Bool)
    (stream : List (Option NatsMessage)) (seen out : List String)
    (h : ∀ x ∈ stream, x ≠ none) :
    ∃ o, list_topics_loop fr stream seen out = .running o := by
  induction stream generalizing seen out with
  | nil => exact ⟨out, rfl⟩
  | cons head rest ih =>
    cases head with
    | none => exact absurd rfl (h none (List.mem_cons_self _ _))
    | some message =>
      have h' : ∀ x ∈ rest, x ≠ none := fun x hx => h x (List.mem_cons_of_mem _ hx)
      by_cases hskip : fr && strBeginsWith message.subject "_INBOX"
      · simpa [list_topics_loop, hskip] using ih seen out h'
      · by_cases hseen : message.subject ∈ seen
        · simpa [list_topics_loop, hskip, hseen] using ih seen out h'
        · simpa [list_topics_loop, hskip, hseen] using
            ih (message.subject :: seen) (out ++ [message.subject]) h'

theorem readRegisterLoop_connect_count (env : ModbusEnv) (address count : Nat)
    (kind : RegisterKind) (unit_id : Nat) (pres : ReadPresentationKind)
    (fuel : Nat) (trace : List ModbusEvent) (out : List String)
    (hconn : env.connectOk = true) (hread : env.readOk = true) :
    ((readRegisterLoop env address count kind unit_id pres true fuel trace out).trace.countP
      isConnect) = trace.countP isConnect + fuel := by
  induction fuel generalizing trace out with
  | zero => simp [readRegisterLoop]
  | succ fuel ih =>
    have h1 : readRegisterLoop env address count kind unit_id pres true (fuel + 1) trace out
        = readRegisterLoop env address count kind unit_id pres true fuel
            (trace ++ [ModbusEvent.connect, .setSlave unit_id, readEvent kind address count])
            (out ++ [formatResult pres
              ((List.range count).map (fun i => env.regs kind (address + i)))]) := by
      simp [readRegisterLoop, read_modbus, hconn, hread]
    rw [h1, ih]
    cases kind <;>
      simp [List.countP_append, List.countP_cons, isConnect, readEvent] <;>
      omega

/-! ## Claims -/

/-- Claim C1: the claim says subscribe with `watch=true` continues receiving
and printing messages until externally interrupted. In the source,
`for message in subscription.next().await` iterates over the `Option`
returned by a single `next()` call, so even with `watch=true` and a second
message waiting on the stream, subscribe prints only the first message and
returns `Ok` — the `if !watch break` can never drive a second iteration.
This theorem evaluates the model at that failing input. -/
theorem c1_subscribe_watch_true_stops_after_first :
    natsSubscribe clientTwoMessages "subj" (some true) none
      = (["a"], .finished (.ok ())) := by decide

/-- Claim C2: authentication validation accepts exactly the three
configurations username+password, token alone, and no credentials, and
rejects every other combination with an error; a rejected configuration
makes `main` return before any connection attempt is made. -/
theorem c2_auth_validation (args : NatsArgs) (connectOk : Bool)
    (client : Client) :
    (exceptOk (get_connect_options args) = true ↔ acceptedAuth args)
    ∧ (exceptOk (get_connect_options args) = false →
        (natsMain connectOk client args).connects = 0) := by
  obtain ⟨address, u, p, t, v, cmd⟩ := args
  constructor
  · cases u <;> cases p <;> cases t <;>
      simp [get_connect_options, exceptOk, acceptedAuth]
  · intro h
    cases u <;> cases p <;> cases t <;>
      simp [get_connect_options, exceptOk] at h ⊢ <;>
      simp [natsMain, get_connect_options]

/-- Witness for C2: the username-without-password configuration is rejected
and the run makes no connection attempt. -/
theorem c2_auth_validation_witness :
    (natsMain true clientTwoMessages argsUserOnly).connects = 0 :=
  (c2_auth_validation argsUserOnly true clientTwoMessages).2 rfl

/-- Claim C3 counterexample: a NATS run whose connection attempt fails logs
the error but exits with code 0 (the source logs and returns from `main`),
contradicting the claim that both tools exit with a non-zero code on any
connection failure. -/
theorem c3_nats_connect_failure_exits_zero :
    (natsMain false clientTwoMessages argsPublishNoAuth).logs
      = [(.error, "Unable to connect to remote: connect error")]
    ∧ (natsMain false clientTwoMessages argsPublishNoAuth).status
      = .exited 0 := by decide

/-- Claim C3 (amended): the Modbus tool exits 0 on success and -1 (non-zero)
on any address-parse, validation, connection, or protocol failure — it exits
-1 exactly when it logged a diagnostic, and it uses no exit code other than
0 or -1; the NATS tool, by contrast, never exits with a non-zero code: on
failure it logs the error and returns from `main` with exit code 0. -/
theorem c3_exit_codes_amended :
    (∀ (env : ModbusEnv) (args : ModbusArgs) (fuel : Nat),
      ((modbusMain env args fuel).status = .exited (-1)
        ↔ (modbusMain env args fuel).logs ≠ [])
      ∧ (∀ c, (modbusMain env args fuel).status = .exited c → c = 0 ∨ c = -1))
    ∧ (∀ (connectOk : Bool) (client : Client) (args : NatsArgs) (c : Int),
        (natsMain connectOk client args).status = .exited c → c = 0) := by
  constructor
  · intro env args fuel
    rcases args with ⟨pok, cmd⟩
    cases pok
    · simp [modbusMain]
    · rcases cmd with _ | sub
      · simp [modbusMain]
      · rcases sub with ⟨address, kind, watch, unit_id, count, pres⟩ |
          ⟨address, value, unit_id⟩
        · simpa [modbusMain] using
            readRegisterLoop_status_logs env address (count.getD 1) kind
              (unit_id.getD 1) (pres.getD .dec) (watch.getD false) fuel [] []
        · rcases hw : write_modbus env address value (unit_id.getD 1) with ⟨events, res⟩
          cases res <;> simp [modbusMain, hw]
  · intro connectOk client args c hc
    rcases natsMain_status_cases connectOk client args with h | h | h <;> rw [h] at hc
    · injection hc with h2
      omega
    · exact absurd hc (by simp)
    · exact absurd hc (by simp)

/-- Witness for the amended C3: a Modbus write run whose connection fails
exits -1, and a failing NATS run exits with code 0. -/
theorem c3_exit_codes_amended_witness :
    (modbusMain ⟨false, true, true, fun _ _ => 0⟩
        ⟨true, some (.writeRegister 1 2 none)⟩ 1).status = .exited (-1)
    ∧ (0 : Int) = 0 := by
  constructor
  · exact ((c3_exit_codes_amended.1 ⟨false, true, true, fun _ _ => 0⟩
      ⟨true, some (.writeRegister 1 2 none)⟩ 1).1).mpr (by decide)
  · exact c3_exit_codes_amended.2 false clientTwoMessages argsPublishNoAuth 0
      (by decide)

/-- Claim C4 counterexample: a watch-mode read run observed for two
iterations opens two connections, not one — `read_modbus` runs
`tcp::connect` on every iteration of the watch loop, so the connection is
not opened exactly once per process run. -/
theorem c4_two_iterations_open_two_connections :
    (modbusMain envAllOk
        ⟨true, some (.readRegister 7 .holding (some true) none (some 2) none)⟩
        2).trace.countP isConnect = 2 := by decide

/-- Claim C4 (amended): the Modbus read tool opens a fresh connection on
every iteration of the watch loop rather than reusing one: a successful
watch-mode read run observed for `fuel` iterations opens exactly `fuel`
connections. -/
theorem c4_amended_connection_per_iteration (env : ModbusEnv) (address : Nat)
    (kind : RegisterKind) (unit_id count : Option Nat)
    (pres : Option ReadPresentationKind) (fuel : Nat)
    (hconn : env.connectOk = true) (hread : env.readOk = true) :
    ((modbusMain env
        ⟨true, some (.readRegister address kind (some true) unit_id count pres)⟩
        fuel).trace.countP isConnect) = fuel := by
  simpa [modbusMain] using
    readRegisterLoop_connect_count env address (count.getD 1) kind
      (unit_id.getD 1) (pres.getD .dec) fuel [] [] hconn hread

/-- Witness for the amended C4: three observed watch iterations open three
connections. -/
theorem c4_amended_witness :
    ((modbusMain envAllOk
        ⟨true, some (.readRegister 7 .holding (some true) none (some 3) none)⟩
        3).trace.countP isConnect) = 3 :=
  c4_amended_connection_per_iteration envAllOk 7 .holding none (some 3) none 3
    rfl rfl

/-- Claim C5: a successful non-watch read run issues exactly one read
request for `count` registers starting at `address`, prints a single line
holding exactly `count` formatted values in request order (value `i` is the
register at `address + i`), and register value 255 renders as "0xff" under
hexadecimal presentation and as "255" under decimal presentation. -/
theorem c5_read_count_and_formatting (env : ModbusEnv) (address : Nat)
    (kind : RegisterKind) (unit_id count : Option Nat)
    (pres : ReadPresentationKind) (watch : Option Bool) (fuel : Nat)
    (hcount : 1 ≤ count.getD 1) (hwatch : watch.getD false = false)
    (hconn : env.connectOk = true) (hread : env.readOk = true)
    (hfuel : 1 ≤ fuel) :
    (modbusMain env
        ⟨true, some (.readRegister address kind watch unit_id count (some pres))⟩
        fuel).trace
      = [.connect, .setSlave (unit_id.getD 1), readEvent kind address (count.getD 1)]
    ∧ (modbusMain env
        ⟨true, some (.readRegister address kind watch unit_id count (some pres))⟩
        fuel).output
      = [debugList (((List.range (count.getD 1)).map
          (fun i => env.regs kind (address + i))).map (formatRegister pres))]
    ∧ (((List.range (count.getD 1)).map (fun i => env.regs kind (address + i))).map
        (formatRegister pres)).length = count.getD 1
    ∧ formatRegister .hex 255 = "0xff"
    ∧ formatRegister .dec 255 = "255" := by
  obtain ⟨f, rfl⟩ : ∃ f, fuel = f + 1 := ⟨fuel - 1, by omega⟩
  refine ⟨?_, ?_, by simp, by decide, by decide⟩
  · simp [modbusMain, readRegisterLoop, read_modbus, hconn, hread, hwatch,
      formatResult]
  · simp [modbusMain, readRegisterLoop, read_modbus, hconn, hread, hwatch,
      formatResult]

/-- Witness for C5: reading two registers at address 7 in hex from a device
whose registers all hold 255. -/
theorem c5_witness :
    (modbusMain envAllOk
        ⟨true, some (.readRegister 7 .holding none none (some 2) (some .hex))⟩
        1).trace
      = [.connect, .setSlave 1, readEvent .holding 7 2]
    ∧ (modbusMain envAllOk
        ⟨true, some (.readRegister 7 .holding none none (some 2) (some .hex))⟩
        1).output
      = [debugList (((List.range 2).map
          (fun i => envAllOk.regs .holding (7 + i))).map (formatRegister .hex))]
    ∧ (((List.range 2).map (fun i => envAllOk.regs .holding (7 + i))).map
        (formatRegister .hex)).length = 2
    ∧ formatRegister .hex 255 = "0xff"
    ∧ formatRegister .dec 255 = "255" :=
  c5_read_count_and_formatting envAllOk 7 .holding none (some 2) .hex none 1
    (by decide) rfl rfl rfl (by decide)

/-- Claim C6: once the connection is established, write-register issues
exactly one write-single-register call carrying exactly the given address
and value, after binding the given unit id (1 when omitted). -/
theorem c6_write_single_register (env : ModbusEnv) (address value : Nat)
    (unit_id : Option Nat) (fuel : Nat)
    (haddr : address < 65536) (hval : value < 65536)
    (hconn : env.connectOk = true) :
    ((modbusMain env ⟨true, some (.writeRegister address value unit_id)⟩
        fuel).trace.filter isWriteEvent) = [.writeSingleRegister address value]
    ∧ (modbusMain env ⟨true, some (.writeRegister address value unit_id)⟩
        fuel).trace
      = [.connect, .setSlave (unit_id.getD 1), .writeSingleRegister address value] := by
  by_cases hw : env.writeOk <;>
    simp [modbusMain, write_modbus, hconn, hw, List.filter_cons, isWriteEvent]

/-- Witness for C6: writing value 255 to address 9 with the default unit
id. -/
theorem c6_witness :
    ((modbusMain envAllOk ⟨true, some (.writeRegister 9 255 none)⟩ 1).trace.filter
        isWriteEvent) = [.writeSingleRegister 9 255]
    ∧ (modbusMain envAllOk ⟨true, some (.writeRegister 9 255 none)⟩ 1).trace
      = [.connect, .setSlave 1, .writeSingleRegister 9 255] :=
  c6_write_single_register envAllOk 9 255 none 1 (by decide) (by decide) rfl

/-- Claim C7: if the first message delivered by the subscription has a
payload that is not valid UTF-8, subscribe returns the UTF-8 error and
prints nothing — neither the payload nor any verbose field. -/
theorem c7_invalid_utf8_fails_without_output (client : Client)
    (subject : String) (watch verbose : Option Bool) (m : NatsMessage)
    (rest : List (Option NatsMessage))
    (hsub : client.subscribeOk = true)
    (hstream : client.stream = some m :: rest)
    (hbad : utf8Decode m.payload = none) :
    natsSubscribe client subject watch verbose
      = ([], .finished (.error
          "Unable to parse message into utf-8. Please petition to authors to display raw bytes.")) := by
  simp [natsSubscribe, hsub, hstream, hbad]

/-- Witness for C7: a verbose subscribe receiving the invalid byte 0xFF
fails with the UTF-8 error and prints nothing. -/
theorem c7_witness :
    natsSubscribe clientBadPayload "subj" none (some true)
      = ([], .finished (.error
          "Unable to parse message into utf-8. Please petition to authors to display raw bytes.")) :=
  c7_invalid_utf8_fails_without_output clientBadPayload "subj" none (some true)
    ⟨"subj", [255], none, none⟩ [] rfl rfl (by decide)

/-- Claim C8: over any sequence of received messages, list-subjects prints
each distinct subject at most once (the printed list has no duplicates),
and with `filter_response=true` no printed subject begins with the reserved
`_INBOX` prefix. -/
theorem c8_list_subjects_dedup_and_filter (client : Client)
    (filter_response : Bool) :
    (topicsOut (list_topics client filter_response)).Nodup
    ∧ (filter_response = true →
        ∀ s ∈ topicsOut (list_topics client filter_response),
          strBeginsWith s "_INBOX" = false) := by
  by_cases hs : client.subscribeOk
  · simpa [list_topics, hs] using
      list_topics_loop_invariant filter_response client.stream [] []
        (by simp) (by simp) (by simp)
  · simp [list_topics, hs, topicsOut]

/-- Witness for C8: the stream alpha, alpha, _INBOX.reply, beta prints each
subject once and never an `_INBOX` one. -/
theorem c8_witness :
    strBeginsWith "alpha" "_INBOX" = false
    ∧ (topicsOut (list_topics clientSubjects true)).Nodup :=
  ⟨(c8_list_subjects_dedup_and_filter clientSubjects true).2 rfl "alpha"
      (by decide),
    (c8_list_subjects_dedup_and_filter clientSubjects true).1⟩

/-- Claim C9 counterexample: when the subscription stream ends (`next()`
returns `None`), the receive loop of list-subjects panics on `unwrap()` —
it aborts of its own accord instead of continuing until external
interruption, both at the operation level and for the whole process. -/
theorem c9_stream_end_panics :
    list_topics clientEndedStream false = .panicked []
    ∧ (natsMain true clientEndedStream argsListNoFilter).status = .panicked := by
  decide

/-- Claim C9 (amended): list-subjects keeps running with no termination
condition of its own as long as the subscription stream keeps delivering
messages; only when the underlying stream ends does the loop abort, by
panicking on `unwrap()`. -/
theorem c9_amended_runs_while_messages_arrive (client : Client)
    (filter_response : Bool) (hsub : client.subscribeOk = true)
    (hstream : ∀ x ∈ client.stream, x ≠ none) :
    ∃ out, list_topics client filter_response = .running out := by
  simpa [list_topics, hsub] using
    list_topics_loop_running filter_response client.stream [] [] hstream

/-- Witness for the amended C9: a stream of four delivered messages leaves
the loop still running. -/
theorem c9_amended_witness :
    ∃ out, list_topics clientSubjects false = .running out :=
  c9_amended_runs_while_messages_arrive clientSubjects false rfl (by decide)

/-- Claim C10: with a parseable target address but no subcommand, the
Modbus tool logs the warning "No subcommand specified." and exits with the
non-zero code -1, issuing no library call (no network I/O) and printing
nothing. -/
theorem c10_no_subcommand_warns_and_exits (env : ModbusEnv) (fuel : Nat) :
    modbusMain env ⟨true, none⟩ fuel
      = ⟨[], [], [(.warn, "No subcommand specified.")], .exited (-1)⟩ := rfl
